import Mathlib

/-! Nazara Engine: render-target interface and libsndfile loader.

A shallow embedding of

* `src/src/Nazara/Audio/Loaders/sndfile/Loader.cpp` (the libsndfile virtual-I/O callbacks,
  `sndfileStream` and `LoadSoundBuffer`), and
* `src/include/Nazara/VulkanRenderer/VkRenderTarget.hpp` (the abstract render target),

followed by the properties established about them.

Machine integers are natural numbers or integers with explicit reduction modulo `2^32`
or `2^64` at every place where the C++ code converts or computes in a fixed width.
-/

namespace Sndfile

/-! ## Fixed-width conversions -/

/-- Conversion of an integer to `unsigned int` / `nzUInt32` (reduction modulo `2^32`). -/
def toUInt32 (x : Int) : Nat := (x % 2 ^ 32).toNat

/-- Conversion of an integer to `nzUInt64` / `std::size_t` (reduction modulo `2^64`). -/
def toUInt64 (x : Int) : Nat := (x % 2 ^ 64).toNat

/-- Conversion of an unsigned 64-bit value to `sf_count_t` (signed 64 bit, two's complement). -/
def toInt64 (n : Nat) : Int :=
  if n % 2 ^ 64 < 2 ^ 63 then ((n % 2 ^ 64 : Nat) : Int) else ((n % 2 ^ 64 : Nat) : Int) - 2 ^ 64

/-! ## The input stream handed to the callbacks -/

/-- The operations of `NzInputStream` that the callbacks call. The class
(Nazara/Core/InputStream.hpp) and its implementations are not part of the sources, so the
operations are parameters; `σ` is the state of the stream object. `SetCursorPos` takes a
`nzUInt64`; `Read` is given here only with a null buffer, its argument is the
`std::size_t` byte count and its result the returned count with the stream after the
call. -/
structure NzInputStream (σ : Type) where
  GetSize : σ → Nat
  GetCursorPos : σ → Nat
  SetCursorPos : Nat → σ → σ
  Read : Nat → σ → Nat × σ

/-! ## The virtual-I/O callbacks (Loader.cpp, lines 23-65) -/

/-- Value of `SEEK_SET` of `<cstdio>`. -/
def SEEK_SET : Int := 0
/-- Value of `SEEK_CUR` of `<cstdio>`. -/
def SEEK_CUR : Int := 1
/-- Value of `SEEK_END` of `<cstdio>`. -/
def SEEK_END : Int := 2

/-- Callback `GetSize` (lines 23-27). -/
def GetSize {σ : Type} (io : NzInputStream σ) (stream : σ) : Int := toInt64 (io.GetSize stream)

/-- Callback `Seek` (lines 35-57). `offset` is a `sf_count_t`; it is converted to the
unsigned parameter type of the stream operation it is passed to. The `default` branch only
reports an internal error. The result is the cursor of the stream after the `switch`. -/
def Seek {σ : Type} (io : NzInputStream σ) (offset : Int) (whence : Int) (stream : σ) :
    Int × σ :=
  let stream1 :=
    if whence = SEEK_CUR then (io.Read (toUInt64 offset) stream).2
    else if whence = SEEK_END then
      io.SetCursorPos (toUInt64 ((io.GetSize stream : Int) + offset)) stream
    else if whence = SEEK_SET then io.SetCursorPos (toUInt64 offset) stream
    else stream
  (toInt64 (io.GetCursorPos stream1), stream1)

/-- Callback `Tell` (lines 59-63). -/
def Tell {σ : Type} (io : NzInputStream σ) (stream : σ) : Int := toInt64 (io.GetCursorPos stream)

/-! ## `sndfileStream` (Loader.cpp, lines 67-168) -/

/-- The fields of libsndfile's `SF_INFO` read by the loader. -/
structure SF_INFO where
  frames : Int
  samplerate : Int
  channels : Int
  deriving DecidableEq, Repr

/-- The part of the audio module used by the loader and absent from the sources:
`NzAudio::GetAudioFormat` and the enumerator `nzAudioFormat_Unknown`. Audio formats are
the integer values of the enumeration `nzAudioFormat`. -/
structure AudioModule where
  GetAudioFormat : Int → Int
  nzAudioFormat_Unknown : Int

/-- The libsndfile entry points used by the loader, for one given input stream:
`sf_open_virtual` yields either a null handle (`none`) or a handle together with the
filled `SF_INFO`; `sf_read_short` is given the number of items requested and yields the
number of items read and the samples written to the buffer. -/
structure LibSndfile where
  sf_open_virtual : Option SF_INFO
  sf_read_short : Int → Int × List Int

/-- Data members of `sndfileStream` (lines 161-167); `m_handle` records whether the
handle is non-null. -/
structure sndfileStream where
  m_format : Int
  m_handle : Bool
  m_duration : Nat
  m_sampleCount : Nat
  m_sampleRate : Nat
  deriving DecidableEq, Repr

namespace sndfileStream

/-- Constructor (lines 70-74): the handle is null, the other members keep whatever
value `uninit` holds. -/
def create (uninit : sndfileStream) : sndfileStream := { uninit with m_handle := false }

/-- Method `GetDuration` (lines 85-88). -/
def GetDuration (self : sndfileStream) : Nat := self.m_duration

/-- Method `GetFormat` (lines 90-93). -/
def GetFormat (self : sndfileStream) : Int := self.m_format

/-- Method `GetSampleCount` (lines 95-98). -/
def GetSampleCount (self : sndfileStream) : Nat := self.m_sampleCount

/-- Method `GetSampleRate` (lines 100-103). -/
def GetSampleRate (self : sndfileStream) : Nat := self.m_sampleRate

/-- Method `Open(NzInputStream&)` (lines 117-149). The result is `none` when the unsigned
division of line 140 has a zero divisor (undefined in C++), and otherwise the returned
`bool` with the stream object after the call. -/
def Open (audio : AudioModule) (lib : LibSndfile) (self : sndfileStream) :
    Option (Bool × sndfileStream) :=
  match lib.sf_open_virtual with
  | none => some (false, { self with m_handle := false })
  | some infos =>
    let m_format := audio.GetAudioFormat infos.channels
    if m_format = audio.nzAudioFormat_Unknown then
      some (false, { self with m_format := m_format, m_handle := false })
    else
      let m_sampleCount := toUInt32 (infos.channels * infos.frames)
      let m_sampleRate := toUInt32 infos.samplerate
      let divisor := toUInt32 (m_format * (m_sampleRate : Int))
      if divisor = 0 then none
      else
        some (true,
          { m_format := m_format
            m_handle := true
            m_duration := (1000 * m_sampleCount) % 2 ^ 32 / divisor
            m_sampleCount := m_sampleCount
            m_sampleRate := m_sampleRate })

/-- Method `Read` (lines 151-154): the count returned by `sf_read_short` converted to
`unsigned int`, and the samples written to the buffer. -/
def Read (lib : LibSndfile) (_self : sndfileStream) (sampleCount : Nat) : Nat × List Int :=
  let r := lib.sf_read_short (sampleCount : Int)
  (toUInt32 r.1, r.2)

/-- Method `Seek` (lines 156-159): the arguments `frames` and `whence` of the call of
`sf_seek`; `offset` is a `nzUInt32` and the product is an `unsigned int`. -/
def Seek (self : sndfileStream) (offset : Nat) : Nat × Int :=
  ((offset % 2 ^ 32 * self.m_sampleRate) % 2 ^ 32 / 1000, SEEK_SET)

end sndfileStream

/-! ## `LoadSoundBuffer` (Loader.cpp, lines 253-277) -/

/-- Arguments of one call of `NzSoundBuffer::Create`. -/
structure CreateArgs where
  format : Int
  sampleCount : Nat
  sampleRate : Nat
  samples : List Int
  deriving DecidableEq, Repr

/-- What a run of `LoadSoundBuffer` leaves behind: the returned `bool`, the sound buffer,
and the calls of `NzSoundBuffer::Create` that were made, in order. -/
structure LoadResult (B : Type) where
  ret : Bool
  soundBuffer : B
  createCalls : List CreateArgs

/-- Function `LoadSoundBuffer` (lines 253-277). `Create` stands for
`NzSoundBuffer::Create`, which is not part of the sources: it receives the arguments and
the sound buffer and yields its `bool` result with the sound buffer after the call. The
result is `none` exactly when `Open` is undefined. -/
def LoadSoundBuffer {B : Type} (audio : AudioModule) (lib : LibSndfile)
    (Create : CreateArgs → B → Bool × B) (uninit : sndfileStream) (soundBuffer : B) :
    Option (LoadResult B) :=
  let musicStream := sndfileStream.create uninit
  match sndfileStream.Open audio lib musicStream with
  | none => none
  | some (false, _) => some ⟨false, soundBuffer, []⟩
  | some (true, musicStream) =>
    let sampleCount := musicStream.GetSampleCount
    let rd := musicStream.Read lib sampleCount
    if rd.1 ≠ sampleCount then some ⟨false, soundBuffer, []⟩
    else
      let args : CreateArgs :=
        ⟨musicStream.GetFormat, sampleCount, musicStream.GetSampleRate, rd.2⟩
      let cr := Create args soundBuffer
      if cr.1 = false then some ⟨false, cr.2, [args]⟩
      else some ⟨true, cr.2, [args]⟩

/-- The arguments that `LoadSoundBuffer` passes to `NzSoundBuffer::Create` for an opened
stream: its format, its sample count, its sample rate and the samples read. -/
def createArgsOf (lib : LibSndfile) (st : sndfileStream) : CreateArgs :=
  ⟨st.GetFormat, st.GetSampleCount, st.GetSampleRate, (st.Read lib st.GetSampleCount).2⟩

/-! ## Sample inputs -/

/-- An audio module whose formats are the channel counts 1, 2, 4, 6, 7 and 8, with -1 for
the unknown format. -/
def channelAudio : AudioModule where
  GetAudioFormat c := if c = 1 ∨ c = 2 ∨ c = 4 ∨ c = 6 ∨ c = 7 ∨ c = 8 then c else -1
  nzAudioFormat_Unknown := -1

/-- A library that opens a stereo file of 88200 frames at 44100 Hz and reads every item
that is requested. -/
def stereoFile : LibSndfile where
  sf_open_virtual := some ⟨88200, 44100, 2⟩
  sf_read_short n := (n, List.replicate n.toNat 0)

/-- A stream object before its construction. -/
def blankStream : sndfileStream := ⟨0, false, 0, 0, 0⟩

/-- A sound buffer that records the samples of the last successful creation; creation
fails for an empty sample array. -/
def storeSamples (args : CreateArgs) (buffer : List Int) : Bool × List Int :=
  if args.sampleCount = 0 then (false, buffer) else (true, args.samples)

/-- A library that opens a file of 2 channels and 3 frames at 8000 Hz and reads every
item that is requested. -/
def shortFile : LibSndfile where
  sf_open_virtual := some ⟨3, 8000, 2⟩
  sf_read_short n := (n, List.replicate n.toNat 0)

/-- A library that opens the same file but reads one sample less than requested. -/
def truncatedFile : LibSndfile where
  sf_open_virtual := some ⟨3, 8000, 2⟩
  sf_read_short n := (n - 1, List.replicate (n - 1).toNat 0)

/-- A library that opens a file of 2 channels and `2^31 + 3` frames at 8000 Hz, that is of
4294967302 samples, and reads every item that is requested. -/
def hugeFile : LibSndfile where
  sf_open_virtual := some ⟨2 ^ 31 + 3, 8000, 2⟩
  sf_read_short n := (n, List.replicate n.toNat 0)

/-- A library that opens a file of 8 channels and 3 frames whose sample rate is `2^29`,
and reads every item that is requested. -/
def zeroDivisorFile : LibSndfile where
  sf_open_virtual := some ⟨3, 2 ^ 29, 8⟩
  sf_read_short n := (n, List.replicate n.toNat 0)

end Sndfile

namespace Nz

/-! ## The Vulkan wrapper objects (VkRenderTarget.hpp, includes of lines 13-15) -/

namespace Vk

/-- Wrapper `Vk::RenderPass`; an instance is identified by its handle. -/
structure RenderPass where
  handle : Nat
  deriving DecidableEq, Repr

/-- Wrapper `Vk::Semaphore`; an instance is identified by its handle. -/
structure Semaphore where
  handle : Nat
  deriving DecidableEq, Repr

/-- Wrapper `Vk::Framebuffer`; an instance is identified by its handle. -/
structure Framebuffer where
  handle : Nat
  deriving DecidableEq, Repr

/-- Wrapper `Vk::CommandBuffer`: the commands recorded so far. -/
structure CommandBuffer where
  commands : List Nat
  deriving DecidableEq, Repr

end Vk

/-! ## `VkRenderTarget` (VkRenderTarget.hpp, lines 21-53) -/

/-- Data members of a render target: the two signals declared by `NazaraSignal`
(lines 47-48, each holding its connected slots), the protected members of lines 51-52, and
the data members of the concrete subclass, which are the storage `slots` of its image
slots ("slots are owned by the concrete subclass") and its other members `derived`. -/
structure VkRenderTarget (S D : Type) where
  OnRenderTargetRelease : List Nat
  OnRenderTargetSizeChange : List Nat
  m_renderPass : Vk.RenderPass
  m_imageReadySemaphore : Vk.Semaphore
  slots : S
  derived : D

namespace VkRenderTarget

/-- Method `GetRenderPass` (line 37). -/
def GetRenderPass {S D : Type} (self : VkRenderTarget S D) : Vk.RenderPass := self.m_renderPass

/-- Method `GetRenderSemaphore` (line 39). -/
def GetRenderSemaphore {S D : Type} (self : VkRenderTarget S D) : Vk.Semaphore :=
  self.m_imageReadySemaphore

end VkRenderTarget

/-- What a call of `bool Acquire(UInt32* imageIndex) const` (line 29) hands back: the
returned `bool` and the content of `*imageIndex` after the call, which is the acquired
image index when `ret` is `true`. -/
structure AcquireResult where
  ret : Bool
  imageIndex : Nat
  deriving DecidableEq, Repr

/-- Modelled from the spec: the pure virtual operations of lines 29-41, whose bodies
belong to concrete subclasses that are not part of the sources. `W` is the state of the
presentation engine behind the Vulkan handles. The `const` operations receive the render
target and cannot return a changed one. `GetFrameBuffer` and `GetFramebufferCount` read
the image slots ("returns the framebuffer bound to slot imageIndex; read-only view,
constant for the object's lifetime unless the surface is reconfigured (resize)"; "total
number of rotating image slots; constant until a resize event"). The other operations
return the other subclass members and the engine state after the call, not the image
slots, which only a reconfiguration changes, and not the owned render pass and
semaphore, because "the render pass and semaphore are exclusively owned and only mutated
during construction/reconfiguration (resize); all other access is read-only"; they yield
`none` when they stop on a fatal error ("precondition violation ... undefined behavior /
fatal assertion"). -/
structure VkRenderTargetImpl (S D W : Type) where
  Acquire : VkRenderTarget S D → W → AcquireResult × W
  BuildPreRenderCommands :
    Nat → Vk.CommandBuffer → VkRenderTarget S D → W → Option (Vk.CommandBuffer × D × W)
  BuildPostRenderCommands :
    Nat → Vk.CommandBuffer → VkRenderTarget S D → W → Option (Vk.CommandBuffer × D × W)
  GetFrameBuffer : Nat → S → Vk.Framebuffer
  GetFramebufferCount : S → Nat
  Present : Nat → VkRenderTarget S D → W → Option (D × W)

/-- A render target together with the presentation engine it drives. -/
structure State (S D W : Type) where
  target : VkRenderTarget S D
  device : W

/-- One call of an operation of the interface, with its arguments. -/
inductive Call where
  | Acquire
  | BuildPreRenderCommands (imageIndex : Nat) (commandBuffer : Vk.CommandBuffer)
  | BuildPostRenderCommands (imageIndex : Nat) (commandBuffer : Vk.CommandBuffer)
  | GetFrameBuffer (imageIndex : Nat)
  | GetFramebufferCount
  | GetRenderPass
  | GetRenderSemaphore
  | Present (imageIndex : Nat)
  deriving DecidableEq, Repr

/-- What the caller gets back from one call. -/
inductive Reply where
  | acquire (r : AcquireResult)
  | commands (commandBuffer : Vk.CommandBuffer)
  | frameBuffer (fb : Vk.Framebuffer)
  | framebufferCount (n : Nat)
  | renderPass (rp : Vk.RenderPass)
  | renderSemaphore (sem : Vk.Semaphore)
  | presented
  | fatalError
  deriving DecidableEq, Repr

/-- Effect of one call on a render target and its presentation engine. A call that stops
on a fatal error is not carried out. -/
def step {S D W : Type} (impl : VkRenderTargetImpl S D W) (c : Call) (s : State S D W) :
    Reply × State S D W :=
  match c with
  | Call.Acquire =>
    let r := impl.Acquire s.target s.device
    (Reply.acquire r.1, { s with device := r.2 })
  | Call.BuildPreRenderCommands i cb =>
    match impl.BuildPreRenderCommands i cb s.target s.device with
    | none => (Reply.fatalError, s)
    | some (cb1, d, w) => (Reply.commands cb1, ⟨{ s.target with derived := d }, w⟩)
  | Call.BuildPostRenderCommands i cb =>
    match impl.BuildPostRenderCommands i cb s.target s.device with
    | none => (Reply.fatalError, s)
    | some (cb1, d, w) => (Reply.commands cb1, ⟨{ s.target with derived := d }, w⟩)
  | Call.GetFrameBuffer i => (Reply.frameBuffer (impl.GetFrameBuffer i s.target.slots), s)
  | Call.GetFramebufferCount =>
    (Reply.framebufferCount (impl.GetFramebufferCount s.target.slots), s)
  | Call.GetRenderPass => (Reply.renderPass s.target.GetRenderPass, s)
  | Call.GetRenderSemaphore => (Reply.renderSemaphore s.target.GetRenderSemaphore, s)
  | Call.Present i =>
    match impl.Present i s.target s.device with
    | none => (Reply.fatalError, s)
    | some (d, w) => (Reply.presented, ⟨{ s.target with derived := d }, w⟩)

/-- A sequence of calls made one after the other: the log of calls with their replies and
the state reached. A fatal error ends the run. -/
def run {S D W : Type} (impl : VkRenderTargetImpl S D W) :
    List Call → State S D W → List (Call × Reply) × State S D W
  | [], s => ([], s)
  | c :: cs, s =>
    let r := step impl c s
    if r.1 = Reply.fatalError then ([(c, r.1)], r.2)
    else
      let rest := run impl cs r.2
      ((c, r.1) :: rest.1, rest.2)

/-! ## Reconfiguration of the surface -/

/-- Modelled from the spec: what can happen to a render target between two calls of
`GetFrameBuffer`: a call of an operation of the interface, or a reconfiguration of the
surface (a resize), the "target size changed" event "fired whenever the framebuffer count
or dimensions change". A reconfiguration is not an operation of the interface; it carries
the render target that it leaves, in which anything may have changed. -/
inductive Action (S D : Type) where
  | call (c : Call)
  | reconfigure (reconfigured : VkRenderTarget S D)

/-- The action is a reconfiguration (size-change) event. -/
def Action.isReconfiguration {S D : Type} : Action S D → Bool
  | Action.call _ => false
  | Action.reconfigure _ => true

/-- A sequence of actions performed one after the other and the state reached. A fatal
error ends the run. -/
def runActions {S D W : Type} (impl : VkRenderTargetImpl S D W) :
    List (Action S D) → State S D W → State S D W
  | [], s => s
  | Action.call c :: rest, s =>
    let r := step impl c s
    if r.1 = Reply.fatalError then r.2 else runActions impl rest r.2
  | Action.reconfigure t :: rest, s => runActions impl rest { s with target := t }

/-! ## Destruction of a render target -/

/-- The data members of `VkRenderTarget`. -/
inductive Member where
  | OnRenderTargetRelease
  | OnRenderTargetSizeChange
  | m_renderPass
  | m_imageReadySemaphore
  deriving DecidableEq, Repr

/-- The data members in the order of their declaration (lines 47, 48, 51, 52). -/
def declaredMembers : List Member :=
  [Member.OnRenderTargetRelease, Member.OnRenderTargetSizeChange, Member.m_renderPass,
    Member.m_imageReadySemaphore]

/-- What happens during destruction: a signal is fired, or a data member is destroyed
(after which it is invalid). -/
inductive Event where
  | fire (signal : Member)
  | destroy (member : Member)
  deriving DecidableEq, Repr

/-- Modelled from the spec: the body of `VkRenderTarget::~VkRenderTarget()`, declared at
line 27 and defined outside the sources: "destruction must broadcast a release
notification ... before internal resources are torn down". -/
def destructorBody : List Event := [Event.fire Member.OnRenderTargetRelease]

/-- Destruction of the `VkRenderTarget` subobject: the destructor body runs, then the data
members are destroyed in the reverse order of their declaration. -/
def destructor : List Event := destructorBody ++ declaredMembers.reverse.map Event.destroy

/-! ## A render target over rotating image slots -/

/-- State of a presentation engine with rotating image slots: the slot handed out by the
next acquisition, whether the surface is out of date, the slots acquired and not yet
presented, and the slots presented so far. -/
structure Swapchain where
  next : Nat
  outOfDate : Bool
  acquired : List Nat
  presented : List Nat
  deriving DecidableEq, Repr

/-- Modelled from the spec: a concrete render target in a debug build (the subclasses of
`VkRenderTarget` are not part of the sources) whose image slots are a list of
framebuffers. `Acquire` fails when the surface is out of date and otherwise hands out the
next slot; the build operations append a command for the slot; `Present` of a slot that
was not acquired stops on a fatal error ("issuing Present for an index that was never
successfully Acquired is rejected (fatal error) in a debug build"). The render target
itself tracks nothing; the acquired slots are known to the presentation engine. -/
def slotTarget : VkRenderTargetImpl (List Vk.Framebuffer) Unit Swapchain where
  Acquire t w :=
    if w.outOfDate then (⟨false, 0⟩, w)
    else (⟨true, w.next⟩,
      { w with next := (w.next + 1) % t.slots.length, acquired := w.next :: w.acquired })
  BuildPreRenderCommands i cb _ w := some (⟨cb.commands ++ [2 * i]⟩, (), w)
  BuildPostRenderCommands i cb _ w := some (⟨cb.commands ++ [2 * i + 1]⟩, (), w)
  GetFrameBuffer i slots := slots.getD i ⟨0⟩
  GetFramebufferCount slots := slots.length
  Present i _ w :=
    if i ∈ w.acquired then
      some ((), { w with acquired := w.acquired.erase i, presented := w.presented ++ [i] })
    else none

/-- A render target with three image slots and a fresh presentation engine. -/
def slotState : State (List Vk.Framebuffer) Unit Swapchain :=
  ⟨⟨[], [], ⟨7⟩, ⟨9⟩, [⟨11⟩, ⟨12⟩, ⟨13⟩], ()⟩, ⟨0, false, [], []⟩⟩

/-- One frame on slot 0, followed by a second acquisition. -/
def oneFrame : List (Action (List Vk.Framebuffer) Unit) :=
  [Action.call Call.Acquire, Action.call Call.GetFramebufferCount,
    Action.call (Call.BuildPreRenderCommands 0 ⟨[]⟩),
    Action.call (Call.BuildPostRenderCommands 0 ⟨[]⟩), Action.call (Call.Present 0),
    Action.call Call.GetRenderPass, Action.call (Call.GetFrameBuffer 2),
    Action.call Call.Acquire]

end Nz

/-! # Properties of the libsndfile loader -/

namespace Sndfile

/-! ## Conversions -/

theorem toUInt32_natCast (n : Nat) (h : n < 2 ^ 32) : toUInt32 (n : Int) = n := by
  unfold toUInt32
  have h1 : ((n : Int)) % 2 ^ 32 = n := by
    apply Int.emod_eq_of_lt
    · exact Int.natCast_nonneg n
    · exact_mod_cast h
  rw [h1]
  exact Int.toNat_natCast n

theorem toUInt64_natCast (n : Nat) (h : n < 2 ^ 64) : toUInt64 (n : Int) = n := by
  unfold toUInt64
  have h1 : ((n : Int)) % 2 ^ 64 = n := by
    apply Int.emod_eq_of_lt
    · exact Int.natCast_nonneg n
    · exact_mod_cast h
  rw [h1]
  exact Int.toNat_natCast n

theorem toInt64_of_lt (n : Nat) (h : n < 2 ^ 63) : toInt64 n = n := by
  unfold toInt64
  have h1 : n % 2 ^ 64 = n := Nat.mod_eq_of_lt (by omega)
  rw [h1, if_pos h]

/-! ## The `Seek` callback -/

/-- In every mode the value returned by `Seek` is the cursor of the stream after the call,
the value that `Tell` reports. -/
theorem Seek_returns_Tell {σ : Type} (io : NzInputStream σ) (offset whence : Int)
    (stream : σ) :
    (Seek io offset whence stream).1 = Tell io (Seek io offset whence stream).2 := rfl

/-- With `SEEK_SET` the callback hands the offset to `SetCursorPos`; on a stream whose
`SetCursorPos` puts the cursor at the position it is given, the cursor is left at `o`,
which is returned. -/
theorem Seek_set {σ : Type} (io : NzInputStream σ) (stream : σ) (o : Nat)
    (hset : ∀ n st, n ≤ io.GetSize st → io.GetCursorPos (io.SetCursorPos n st) = n)
    (hs : io.GetSize stream < 2 ^ 63) (ho : o ≤ io.GetSize stream) :
    (Seek io (o : Int) SEEK_SET stream).2 = io.SetCursorPos o stream ∧
      io.GetCursorPos (Seek io (o : Int) SEEK_SET stream).2 = o ∧
      (Seek io (o : Int) SEEK_SET stream).1 = o := by
  have h1 : toUInt64 (o : Int) = o := toUInt64_natCast o (by omega)
  have h2 : toInt64 o = o := toInt64_of_lt o (by omega)
  have h3 : (Seek io (o : Int) SEEK_SET stream).2 = io.SetCursorPos o stream := by
    simp [Seek, SEEK_SET, SEEK_CUR, SEEK_END, h1]
  refine ⟨h3, ?_, ?_⟩
  · rw [h3]
    exact hset o stream ho
  · rw [Seek_returns_Tell, h3, Tell, hset o stream ho, h2]

/-- With `SEEK_END` the callback hands `GetSize() + offset` to `SetCursorPos`; on a stream
whose `SetCursorPos` puts the cursor at the position it is given, the cursor is left at
`s + o` (`o` is zero or negative), which is returned. -/
theorem Seek_end {σ : Type} (io : NzInputStream σ) (stream : σ) (back : Nat)
    (hset : ∀ n st, n ≤ io.GetSize st → io.GetCursorPos (io.SetCursorPos n st) = n)
    (hs : io.GetSize stream < 2 ^ 63) (hb : back ≤ io.GetSize stream) :
    (Seek io (-(back : Int)) SEEK_END stream).2 =
        io.SetCursorPos (io.GetSize stream - back) stream ∧
      io.GetCursorPos (Seek io (-(back : Int)) SEEK_END stream).2 = io.GetSize stream - back ∧
      (Seek io (-(back : Int)) SEEK_END stream).1 = ((io.GetSize stream - back : Nat) : Int) := by
  have h0 : ((io.GetSize stream : Int)) + -(back : Int) = ((io.GetSize stream - back : Nat) : Int) := by
    omega
  have h1 : toUInt64 ((io.GetSize stream - back : Nat) : Int) = io.GetSize stream - back :=
    toUInt64_natCast _ (by omega)
  have h2 : toInt64 (io.GetSize stream - back) = ((io.GetSize stream - back : Nat) : Int) :=
    toInt64_of_lt _ (by omega)
  have h3 : (Seek io (-(back : Int)) SEEK_END stream).2 =
      io.SetCursorPos (io.GetSize stream - back) stream := by
    simp only [Seek, SEEK_SET, SEEK_CUR, SEEK_END, h0, h1]
    simp
  have h4 := hset (io.GetSize stream - back) stream (Nat.sub_le _ _)
  refine ⟨h3, ?_, ?_⟩
  · rw [h3]
    exact h4
  · rw [Seek_returns_Tell, h3, Tell, h4, h2]

/-- With `SEEK_CUR` the callback hands the offset to `Read` as the byte count of a read
into a null buffer; for an offset `o` that is not negative, on a stream whose `Read`
advances the cursor by the count when that many bytes remain, the cursor is left at
`p + o`, which is returned. -/
theorem Seek_cur_forward {σ : Type} (io : NzInputStream σ) (stream : σ) (o : Nat)
    (hskip : ∀ n st, io.GetCursorPos st + n ≤ io.GetSize st →
      io.GetCursorPos (io.Read n st).2 = io.GetCursorPos st + n)
    (hs : io.GetSize stream < 2 ^ 63) (ho : io.GetCursorPos stream + o ≤ io.GetSize stream) :
    (Seek io (o : Int) SEEK_CUR stream).2 = (io.Read o stream).2 ∧
      io.GetCursorPos (Seek io (o : Int) SEEK_CUR stream).2 = io.GetCursorPos stream + o ∧
      (Seek io (o : Int) SEEK_CUR stream).1 = ((io.GetCursorPos stream + o : Nat) : Int) := by
  have h1 : toUInt64 (o : Int) = o := toUInt64_natCast o (by omega)
  have h2 : toInt64 (io.GetCursorPos stream + o) = ((io.GetCursorPos stream + o : Nat) : Int) :=
    toInt64_of_lt _ (by omega)
  have h3 : (Seek io (o : Int) SEEK_CUR stream).2 = (io.Read o stream).2 := by
    simp [Seek, SEEK_CUR, h1]
  have h4 := hskip o stream ho
  refine ⟨h3, ?_, ?_⟩
  · rw [h3]
    exact h4
  · rw [Seek_returns_Tell, h3, Tell, h4, h2]

/-- With `SEEK_CUR` and a negative offset `-back` the callback hands `2^64 - back` to
`Read` as its byte count; where the cursor ends is what that read of the stream leaves. -/
theorem Seek_cur_negative_count {σ : Type} (io : NzInputStream σ) (stream : σ) (back : Nat)
    (hb : 0 < back) (hb2 : back ≤ 2 ^ 63) :
    (Seek io (-(back : Int)) SEEK_CUR stream).2 = (io.Read (2 ^ 64 - back) stream).2 := by
  have h1 : toUInt64 (-(back : Int)) = 2 ^ 64 - back := by
    unfold toUInt64
    have : (-(back : Int)) % 2 ^ 64 = ((2 ^ 64 - back : Nat) : Int) := by
      have e : (-(back : Int)) = ((2 ^ 64 - back : Nat) : Int) + (2 ^ 64 : Int) * (-1) := by
        omega
      rw [e, Int.add_mul_emod_self_left]
      apply Int.emod_eq_of_lt
      · exact Int.natCast_nonneg _
      · have : (2 ^ 64 - back : Nat) < 2 ^ 64 := by omega
        exact_mod_cast this
    rw [this]
    exact Int.toNat_natCast _
  simp [Seek, SEEK_CUR, h1]

/-- With a `whence` that is none of the three modes, the stream is left as it was and its
current position is returned. -/
theorem Seek_other {σ : Type} (io : NzInputStream σ) (stream : σ) (o whence : Int)
    (hp : io.GetCursorPos stream < 2 ^ 63)
    (h0 : whence ≠ SEEK_SET) (h1 : whence ≠ SEEK_CUR) (h2 : whence ≠ SEEK_END) :
    Seek io o whence stream = ((io.GetCursorPos stream : Int), stream) := by
  have h3 : toInt64 (io.GetCursorPos stream) = io.GetCursorPos stream := toInt64_of_lt _ hp
  simp [Seek, h0, h1, h2, h3]

end Sndfile

namespace Sndfile

/-! ## `sndfileStream::Open` and `sndfileStream::Seek` -/

/-- Whenever `Open` returns `true`, the members it leaves are the ones computed at lines
137-140: the sample count and sample rate are the conversions to `unsigned int`, and the
duration is the unsigned 32-bit quotient of line 140. -/
theorem Open_true_members (audio : AudioModule) (lib : LibSndfile) (self st : sndfileStream)
    (h : sndfileStream.Open audio lib self = some (true, st)) :
    ∃ infos, lib.sf_open_virtual = some infos ∧
      audio.GetAudioFormat infos.channels ≠ audio.nzAudioFormat_Unknown ∧
      st.GetFormat = audio.GetAudioFormat infos.channels ∧
      st.GetSampleCount = toUInt32 (infos.channels * infos.frames) ∧
      st.GetSampleRate = toUInt32 infos.samplerate ∧
      toUInt32 (st.GetFormat * (st.GetSampleRate : Int)) ≠ 0 ∧
      st.GetDuration =
        (1000 * st.GetSampleCount) % 2 ^ 32 / toUInt32 (st.GetFormat * (st.GetSampleRate : Int)) := by
  unfold sndfileStream.Open at h
  cases hl : lib.sf_open_virtual with
  | none => simp [hl] at h
  | some infos =>
    simp only [hl] at h
    refine ⟨infos, rfl, ?_⟩
    by_cases hf : audio.GetAudioFormat infos.channels = audio.nzAudioFormat_Unknown
    · simp [hf] at h
    · simp only [hf, if_false] at h
      by_cases hd : toUInt32 (audio.GetAudioFormat infos.channels *
          ((toUInt32 infos.samplerate : Nat) : Int)) = 0
      · simp [hd] at h
      · simp only [hd, if_false, Option.some.injEq, Prod.mk.injEq, true_and] at h
        subst h
        exact ⟨hf, rfl, rfl, rfl, hd, rfl⟩

/-- What `Open` returns for a file of `c` channels, `f` frames and sample rate `r` when
the audio format of `c` channels has the value `c` and nothing overflows. -/
theorem Open_in_range (audio : AudioModule) (lib : LibSndfile) (self : sndfileStream)
    (c f r : Nat) (hlib : lib.sf_open_virtual = some ⟨f, r, c⟩)
    (hfmt : audio.GetAudioFormat c = c) (hknown : (c : Int) ≠ audio.nzAudioFormat_Unknown)
    (hc : 0 < c) (hr : 0 < r) (h1 : 1000 * c * f < 2 ^ 32) (h2 : c * r < 2 ^ 32) :
    sndfileStream.Open audio lib self =
      some (true, ⟨(c : Int), true, 1000 * f / r, c * f, r⟩) := by
  have hcf : c * f < 2 ^ 32 := by nlinarith
  have hr2 : r < 2 ^ 32 := by nlinarith
  have e1 : toUInt32 ((c : Int) * (f : Int)) = c * f := by
    have := toUInt32_natCast (c * f) hcf
    simpa using this
  have e2 : toUInt32 (r : Int) = r := toUInt32_natCast r hr2
  have e3 : toUInt32 ((c : Int) * (r : Int)) = c * r := by
    have := toUInt32_natCast (c * r) h2
    simpa using this
  have e4 : c * r ≠ 0 := by positivity
  have e5 : 1000 * (c * f) % 2 ^ 32 = 1000 * (c * f) := Nat.mod_eq_of_lt (by nlinarith)
  have e6 : 1000 * (c * f) / (c * r) = 1000 * f / r := by
    have : 1000 * (c * f) = c * (1000 * f) := by ring
    rw [this, Nat.mul_div_mul_left _ _ hc]
  unfold sndfileStream.Open
  simp only [hlib, hfmt, if_neg hknown, e1, e2, e3, if_neg e4, e5, e6]

/-- C8: after a successful `Open` on a file with `c` channels (a supported channel count,
so positive, whose audio format has the value `c`), `f` frames and sample rate `r > 0`,
with `1000*c*f < 2^32` and `c*r < 2^32`, `Open` returns `true`, `GetSampleCount()` is
`c*f` and `GetDuration()` is `floor(1000*f / r)`; and for every file on which `Open`
returns `true` the stored duration is `((1000*sampleCount) mod 2^32) /
((format*sampleRate) mod 2^32)`. -/
theorem Open_sampleCount_duration (audio : AudioModule) (lib : LibSndfile)
    (self : sndfileStream) (c f r : Nat) (hlib : lib.sf_open_virtual = some ⟨f, r, c⟩)
    (hfmt : audio.GetAudioFormat c = c) (hknown : (c : Int) ≠ audio.nzAudioFormat_Unknown)
    (hc : 0 < c) (hr : 0 < r) (h1 : 1000 * c * f < 2 ^ 32) (h2 : c * r < 2 ^ 32) :
    (∃ st, sndfileStream.Open audio lib self = some (true, st) ∧
      st.GetSampleCount = c * f ∧ st.GetSampleRate = r ∧ st.GetDuration = 1000 * f / r) ∧
    (∀ (lib2 : LibSndfile) (self2 st2 : sndfileStream),
      sndfileStream.Open audio lib2 self2 = some (true, st2) →
      st2.GetDuration =
        (1000 * st2.GetSampleCount) % 2 ^ 32 /
          ((st2.GetFormat * (st2.GetSampleRate : Int)) % 2 ^ 32).toNat) := by
  constructor
  · exact ⟨_, Open_in_range audio lib self c f r hlib hfmt hknown hc hr h1 h2, rfl, rfl, rfl⟩
  · intro lib2 self2 st2 h
    obtain ⟨_, _, _, _, _, _, _, hd⟩ := Open_true_members audio lib2 self2 st2 h
    exact hd

/-- Witness of C8: a stereo file of 88200 frames at 44100 Hz has 176400 samples and lasts
2000 ms. -/
theorem Open_sampleCount_duration_witness :
    ∃ st, sndfileStream.Open channelAudio stereoFile blankStream = some (true, st) ∧
      st.GetSampleCount = 176400 ∧ st.GetSampleRate = 44100 ∧ st.GetDuration = 2000 := by
  have h := (Open_sampleCount_duration channelAudio stereoFile blankStream 2 88200 44100 rfl
    (by decide) (by decide) (by decide) (by decide) (by norm_num) (by norm_num)).1
  simpa using h

/-- C9: `Seek(offset)` asks `sf_seek` for the frame `floor(offset * sampleRate / 1000)`,
the product being taken modulo `2^32`, counted from the start of the file (`SEEK_SET`);
and on a stream opened on a file of `f` frames and sample rate `r > 0` without overflow in
the duration computation, every `offset <= GetDuration()` with `offset*r < 2^32` asks for
a frame that is at most `f`. -/
theorem Seek_within_duration (audio : AudioModule) (lib : LibSndfile)
    (self : sndfileStream) (c f r : Nat) (hlib : lib.sf_open_virtual = some ⟨f, r, c⟩)
    (hfmt : audio.GetAudioFormat c = c) (hknown : (c : Int) ≠ audio.nzAudioFormat_Unknown)
    (hc : 0 < c) (hr : 0 < r) (h1 : 1000 * c * f < 2 ^ 32) (h2 : c * r < 2 ^ 32) :
    (∀ (st : sndfileStream) (offset : Nat), offset < 2 ^ 32 →
      st.Seek offset = ((offset * st.GetSampleRate) % 2 ^ 32 / 1000, SEEK_SET)) ∧
    (∃ st, sndfileStream.Open audio lib self = some (true, st) ∧
      ∀ offset : Nat, offset ≤ st.GetDuration → offset * r < 2 ^ 32 →
        st.Seek offset = (offset * r / 1000, SEEK_SET) ∧ (st.Seek offset).1 ≤ f) := by
  constructor
  · intro st offset ho
    simp [sndfileStream.Seek, sndfileStream.GetSampleRate, Nat.mod_eq_of_lt ho]
  · refine ⟨_, Open_in_range audio lib self c f r hlib hfmt hknown hc hr h1 h2, ?_⟩
    intro offset hoff hmul
    have hle : offset * r ≤ 1000 * f := by
      have : offset ≤ 1000 * f / r := hoff
      exact (Nat.le_div_iff_mul_le hr).mp this
    have ho : offset < 2 ^ 32 := by nlinarith
    have e1 : offset % 2 ^ 32 = offset := Nat.mod_eq_of_lt ho
    have e2 : offset * r % 2 ^ 32 = offset * r := Nat.mod_eq_of_lt hmul
    have e3 : offset * r / 1000 ≤ f := by omega
    refine ⟨?_, ?_⟩
    · simp only [sndfileStream.Seek, e1, e2]
    · simp only [sndfileStream.Seek, e1, e2]
      exact e3

/-- Witness of C9: on the stereo file of 88200 frames at 44100 Hz, seeking to 1500 ms
asks for frame 66150. -/
theorem Seek_within_duration_witness :
    ∃ st, sndfileStream.Open channelAudio stereoFile blankStream = some (true, st) ∧
      st.Seek 1500 = (66150, SEEK_SET) ∧ (st.Seek 1500).1 ≤ 88200 := by
  obtain ⟨st, hst, h⟩ := (Seek_within_duration channelAudio stereoFile blankStream 2 88200
    44100 rfl (by decide) (by decide) (by decide) (by decide) (by norm_num) (by norm_num)).2
  have hd : st.GetDuration = 2000 := by
    have h0 := Open_in_range channelAudio stereoFile blankStream 2 88200 44100 rfl
      (by decide) (by decide) (by decide) (by decide) (by norm_num) (by norm_num)
    rw [h0] at hst
    simp only [Option.some.injEq, Prod.mk.injEq, true_and] at hst
    subst hst
    simp [sndfileStream.GetDuration]
  have h3 := h 1500 (by rw [hd]; norm_num) (by norm_num)
  refine ⟨st, hst, ?_, ?_⟩
  · simpa using h3.1
  · simpa using h3.2

end Sndfile

namespace Sndfile

/-! ## `LoadSoundBuffer` -/

/-- `Open` returns `true` exactly when libsndfile returns a handle, the channel count
maps to a known audio format, and the divisor of line 140 is not zero. -/
theorem Open_true_iff (audio : AudioModule) (lib : LibSndfile) (self : sndfileStream) :
    (∃ st, sndfileStream.Open audio lib self = some (true, st)) ↔
      ∃ infos, lib.sf_open_virtual = some infos ∧
        audio.GetAudioFormat infos.channels ≠ audio.nzAudioFormat_Unknown ∧
        toUInt32 (audio.GetAudioFormat infos.channels *
          ((toUInt32 infos.samplerate : Nat) : Int)) ≠ 0 := by
  constructor
  · rintro ⟨st, h⟩
    obtain ⟨infos, h1, h2, h3, _, h5, h6, _⟩ := Open_true_members audio lib self st h
    refine ⟨infos, h1, h2, ?_⟩
    rw [h3, h5] at h6
    exact h6
  · rintro ⟨infos, h1, h2, h3⟩
    unfold sndfileStream.Open
    simp only [h1, if_neg h2, if_neg h3]
    exact ⟨_, rfl⟩

/-- C10, amended: `LoadSoundBuffer` returns `true` if and only if the stream opens, reading
returns exactly the sample count of the stream, and `Create` succeeds; when it returns `true`,
`Create` was called exactly once, with the format, sample count and sample rate of the
stream and the samples read; when opening fails or fewer samples than the sample count are
read, it returns `false` without any call of `Create` and the sound buffer is the one it
was given. The stream opens exactly when libsndfile returns a handle and the channel
count maps to a known audio format (the divisor of the duration being nonzero), and its
sample count is `channels*frames` converted to `unsigned int`, which is `channels*frames`
itself whenever the product is below `2^32`. -/
theorem LoadSoundBuffer_result {B : Type} (audio : AudioModule) (lib : LibSndfile)
    (Create : CreateArgs → B → Bool × B) (uninit : sndfileStream) (soundBuffer : B) :
    ((∃ res, LoadSoundBuffer audio lib Create uninit soundBuffer = some res ∧ res.ret = true) ↔
      ∃ st, sndfileStream.Open audio lib (sndfileStream.create uninit) = some (true, st) ∧
        (st.Read lib st.GetSampleCount).1 = st.GetSampleCount ∧
        (Create (createArgsOf lib st) soundBuffer).1 = true) ∧
    (∀ res, LoadSoundBuffer audio lib Create uninit soundBuffer = some res → res.ret = true →
      ∃ st, sndfileStream.Open audio lib (sndfileStream.create uninit) = some (true, st) ∧
        res.createCalls = [createArgsOf lib st] ∧
        res.soundBuffer = (Create (createArgsOf lib st) soundBuffer).2) ∧
    (∀ st, sndfileStream.Open audio lib (sndfileStream.create uninit) = some (false, st) →
      LoadSoundBuffer audio lib Create uninit soundBuffer = some ⟨false, soundBuffer, []⟩) ∧
    (∀ st, sndfileStream.Open audio lib (sndfileStream.create uninit) = some (true, st) →
      (st.Read lib st.GetSampleCount).1 < st.GetSampleCount →
      LoadSoundBuffer audio lib Create uninit soundBuffer = some ⟨false, soundBuffer, []⟩) ∧
    ((∃ st, sndfileStream.Open audio lib (sndfileStream.create uninit) = some (true, st)) ↔
      ∃ infos, lib.sf_open_virtual = some infos ∧
        audio.GetAudioFormat infos.channels ≠ audio.nzAudioFormat_Unknown ∧
        toUInt32 (audio.GetAudioFormat infos.channels *
          ((toUInt32 infos.samplerate : Nat) : Int)) ≠ 0) ∧
    (∀ st, sndfileStream.Open audio lib (sndfileStream.create uninit) = some (true, st) →
      ∃ infos, lib.sf_open_virtual = some infos ∧
        st.GetSampleCount = toUInt32 (infos.channels * infos.frames) ∧
        (0 ≤ infos.channels * infos.frames → infos.channels * infos.frames < 2 ^ 32 →
          (st.GetSampleCount : Int) = infos.channels * infos.frames)) := by
  refine ⟨?_, ?_, ?_, ?_, Open_true_iff audio lib _, ?_⟩
  · constructor
    · rintro ⟨res, h, hret⟩
      unfold LoadSoundBuffer at h
      cases ho : sndfileStream.Open audio lib (sndfileStream.create uninit) with
      | none => simp [ho] at h
      | some p =>
        obtain ⟨b, st⟩ := p
        cases b with
        | false =>
          simp only [ho, Option.some.injEq] at h
          subst h
          simp at hret
        | true =>
          simp only [ho] at h
          refine ⟨st, rfl, ?_⟩
          by_cases hrd : (st.Read lib st.GetSampleCount).1 = st.GetSampleCount
          · refine ⟨hrd, ?_⟩
            by_cases hcr : (Create (createArgsOf lib st) soundBuffer).1 = true
            · exact hcr
            · have hcr2 : (Create (createArgsOf lib st) soundBuffer).1 = false := by
                simpa using hcr
              simp only [createArgsOf] at hcr2
              simp only [ne_eq, hrd, not_true_eq_false, if_false, hcr2, if_true,
                Option.some.injEq] at h
              subst h
              simp at hret
          · simp only [ne_eq, hrd, not_false_eq_true, if_true, Option.some.injEq] at h
            subst h
            simp at hret
    · rintro ⟨st, ho, hrd, hcr⟩
      unfold LoadSoundBuffer
      simp only [createArgsOf] at hcr
      simp only [ho, ne_eq, hrd, not_true_eq_false, if_false, hcr, Bool.true_eq_false]
      exact ⟨_, rfl, rfl⟩
  · intro res h hret
    unfold LoadSoundBuffer at h
    cases ho : sndfileStream.Open audio lib (sndfileStream.create uninit) with
    | none => simp [ho] at h
    | some p =>
      obtain ⟨b, st⟩ := p
      cases b with
      | false =>
        simp only [ho, Option.some.injEq] at h
        subst h
        simp at hret
      | true =>
        simp only [ho] at h
        refine ⟨st, rfl, ?_⟩
        by_cases hrd : (st.Read lib st.GetSampleCount).1 = st.GetSampleCount
        · simp only [ne_eq, hrd, not_true_eq_false, if_false] at h
          split at h
          · simp only [Option.some.injEq] at h
            subst h
            simp at hret
          · simp only [Option.some.injEq] at h
            subst h
            exact ⟨rfl, rfl⟩
        · simp only [ne_eq, hrd, not_false_eq_true, if_true, Option.some.injEq] at h
          subst h
          simp at hret
  · intro st ho
    unfold LoadSoundBuffer
    simp only [ho]
  · intro st ho hlt
    unfold LoadSoundBuffer
    have hne : (st.Read lib st.GetSampleCount).1 ≠ st.GetSampleCount := Nat.ne_of_lt hlt
    simp only [ho, ne_eq, hne, not_false_eq_true, if_true]
  · intro st ho
    obtain ⟨infos, h1, _, _, h4, _⟩ := Open_true_members audio lib _ st ho
    refine ⟨infos, h1, h4, ?_⟩
    intro h0 hlt
    rw [h4]
    unfold toUInt32
    rw [Int.emod_eq_of_lt h0 hlt]
    exact Int.toNat_of_nonneg h0

/-- Witness of C10: on a file of 2 channels and 3 frames that is read in full,
`LoadSoundBuffer` returns `true` after one call of `Create` with 6 samples at 8000 Hz; when
one sample less than requested is read, it returns `false`, makes no call and leaves the
sound buffer as it was. -/
theorem LoadSoundBuffer_result_witness :
    (∃ res, LoadSoundBuffer channelAudio shortFile storeSamples blankStream [5] = some res ∧
      res.ret = true ∧ res.createCalls = [⟨2, 6, 8000, [0, 0, 0, 0, 0, 0]⟩] ∧
      res.soundBuffer = [0, 0, 0, 0, 0, 0]) ∧
    LoadSoundBuffer channelAudio truncatedFile storeSamples blankStream [5] =
      some ⟨false, [5], []⟩ := by
  have ho1 : sndfileStream.Open channelAudio shortFile (sndfileStream.create blankStream) =
      some (true, ⟨2, true, 0, 6, 8000⟩) :=
    Open_in_range channelAudio shortFile _ 2 3 8000 rfl (by decide) (by decide) (by decide)
      (by decide) (by norm_num) (by norm_num)
  have ho2 : sndfileStream.Open channelAudio truncatedFile (sndfileStream.create blankStream) =
      some (true, ⟨2, true, 0, 6, 8000⟩) :=
    Open_in_range channelAudio truncatedFile _ 2 3 8000 rfl (by decide) (by decide)
      (by decide) (by decide) (by norm_num) (by norm_num)
  have hr1 : sndfileStream.Read shortFile ⟨2, true, 0, 6, 8000⟩ 6 = (6, [0, 0, 0, 0, 0, 0]) := by
    simp [sndfileStream.Read, shortFile, toUInt32, List.replicate]
  have hr2 : (sndfileStream.Read truncatedFile ⟨2, true, 0, 6, 8000⟩ 6).1 = 5 := by
    simp [sndfileStream.Read, truncatedFile, toUInt32]
  have h := LoadSoundBuffer_result channelAudio shortFile storeSamples blankStream [5]
  have h2 := LoadSoundBuffer_result channelAudio truncatedFile storeSamples blankStream [5]
  constructor
  · obtain ⟨res, hres, hret⟩ := h.1.mpr ⟨_, ho1, by
      simp [sndfileStream.GetSampleCount, hr1], by
      simp [createArgsOf, storeSamples, sndfileStream.GetSampleCount]⟩
    obtain ⟨st, hst, hcalls, hbuf⟩ := h.2.1 res hres hret
    rw [ho1] at hst
    simp only [Option.some.injEq, Prod.mk.injEq, true_and] at hst
    subst hst
    refine ⟨res, hres, hret, ?_, ?_⟩
    · rw [hcalls]
      simp [createArgsOf, sndfileStream.GetSampleCount, sndfileStream.GetFormat,
        sndfileStream.GetSampleRate, hr1]
    · rw [hbuf]
      simp [createArgsOf, sndfileStream.GetSampleCount, sndfileStream.GetFormat,
        sndfileStream.GetSampleRate, hr1, storeSamples]
  · exact h2.2.2.2.1 _ ho2 (by simp [sndfileStream.GetSampleCount, hr2])

/-- C10, as stated, fails in 32-bit arithmetic. On a file of 2 channels and `2^31 + 3`
frames the sample count of the stream is 6, not `channels*frames = 4294967302`:
`LoadSoundBuffer` reads 6 samples, calls `Create` with 6 samples and returns `true`. On a
file of 8 channels at `2^29` Hz libsndfile returns a handle and the channel count maps to
a known format, but the divisor of line 140 is zero and `LoadSoundBuffer` returns
nothing. -/
theorem LoadSoundBuffer_count_truncated :
    (∃ res st, LoadSoundBuffer channelAudio hugeFile storeSamples blankStream [] = some res ∧
        res.ret = true ∧
        sndfileStream.Open channelAudio hugeFile (sndfileStream.create blankStream) =
          some (true, st) ∧
        (st.Read hugeFile st.GetSampleCount).1 = 6 ∧
        res.createCalls = [⟨2, 6, 8000, [0, 0, 0, 0, 0, 0]⟩]) ∧
      hugeFile.sf_open_virtual = some ⟨2 ^ 31 + 3, 8000, 2⟩ ∧
      (6 : Int) ≠ 2 * (2 ^ 31 + 3) ∧
      LoadSoundBuffer channelAudio zeroDivisorFile storeSamples blankStream [] = none ∧
      zeroDivisorFile.sf_open_virtual = some ⟨3, 2 ^ 29, 8⟩ ∧
      channelAudio.GetAudioFormat 8 ≠ channelAudio.nzAudioFormat_Unknown := by
  have e1 : toUInt32 4294967302 = 6 := by decide
  have e2 : toUInt32 8000 = 8000 := by decide
  have e3 : toUInt32 16000 = 16000 := by decide
  have ho : sndfileStream.Open channelAudio hugeFile (sndfileStream.create blankStream) =
      some (true, ⟨2, true, 0, 6, 8000⟩) := by
    simp [sndfileStream.Open, channelAudio, hugeFile, e1, e2, e3]
  have hr : sndfileStream.Read hugeFile ⟨2, true, 0, 6, 8000⟩ 6 = (6, [0, 0, 0, 0, 0, 0]) := by
    simp [sndfileStream.Read, hugeFile, toUInt32, List.replicate]
  have e4 : toUInt32 536870912 = 536870912 := by decide
  have e5 : toUInt32 4294967296 = 0 := by decide
  have hz : sndfileStream.Open channelAudio zeroDivisorFile (sndfileStream.create blankStream) =
      none := by
    simp [sndfileStream.Open, channelAudio, zeroDivisorFile, e4, e5]
  refine ⟨⟨⟨true, [0, 0, 0, 0, 0, 0], [⟨2, 6, 8000, [0, 0, 0, 0, 0, 0]⟩]⟩, _, ?_, rfl, ho, ?_, rfl⟩,
    rfl, by norm_num, ?_, rfl, by decide⟩
  · simp [LoadSoundBuffer, ho, sndfileStream.GetSampleCount, sndfileStream.GetFormat,
      sndfileStream.GetSampleRate, hr, storeSamples]
  · simp [sndfileStream.GetSampleCount, hr]
  · simp [LoadSoundBuffer, hz]

end Sndfile

/-! # Properties of the render-target interface -/

namespace Nz

/-! ## What a call leaves alone -/

/-- Every call leaves the render pass and the semaphore of the render target as they
were. -/
theorem step_owned {S D W : Type} (impl : VkRenderTargetImpl S D W) (c : Call)
    (s : State S D W) :
    (step impl c s).2.target.m_renderPass = s.target.m_renderPass ∧
      (step impl c s).2.target.m_imageReadySemaphore = s.target.m_imageReadySemaphore := by
  cases c with
  | Acquire => exact ⟨rfl, rfl⟩
  | BuildPreRenderCommands i cb =>
    simp only [step]
    cases impl.BuildPreRenderCommands i cb s.target s.device with
    | none => exact ⟨rfl, rfl⟩
    | some r => exact ⟨rfl, rfl⟩
  | BuildPostRenderCommands i cb =>
    simp only [step]
    cases impl.BuildPostRenderCommands i cb s.target s.device with
    | none => exact ⟨rfl, rfl⟩
    | some r => exact ⟨rfl, rfl⟩
  | GetFrameBuffer i => exact ⟨rfl, rfl⟩
  | GetFramebufferCount => exact ⟨rfl, rfl⟩
  | GetRenderPass => exact ⟨rfl, rfl⟩
  | GetRenderSemaphore => exact ⟨rfl, rfl⟩
  | Present i =>
    simp only [step]
    cases impl.Present i s.target s.device with
    | none => exact ⟨rfl, rfl⟩
    | some r => exact ⟨rfl, rfl⟩

/-- Every call leaves the image slots of the render target as they were. -/
theorem step_slots {S D W : Type} (impl : VkRenderTargetImpl S D W) (c : Call)
    (s : State S D W) : (step impl c s).2.target.slots = s.target.slots := by
  cases c with
  | Acquire => rfl
  | BuildPreRenderCommands i cb =>
    simp only [step]
    cases impl.BuildPreRenderCommands i cb s.target s.device with
    | none => rfl
    | some r => rfl
  | BuildPostRenderCommands i cb =>
    simp only [step]
    cases impl.BuildPostRenderCommands i cb s.target s.device with
    | none => rfl
    | some r => rfl
  | GetFrameBuffer i => rfl
  | GetFramebufferCount => rfl
  | GetRenderPass => rfl
  | GetRenderSemaphore => rfl
  | Present i =>
    simp only [step]
    cases impl.Present i s.target s.device with
    | none => rfl
    | some r => rfl

/-- A run of actions none of which is a reconfiguration leaves the image slots of the
render target as they were. -/
theorem runActions_slots {S D W : Type} (impl : VkRenderTargetImpl S D W)
    (actions : List (Action S D)) (s : State S D W)
    (hno : ∀ a ∈ actions, a.isReconfiguration = false) :
    (runActions impl actions s).target.slots = s.target.slots := by
  induction actions generalizing s with
  | nil => rfl
  | cons a rest ih =>
    have hrest : ∀ b ∈ rest, b.isReconfiguration = false :=
      fun b hb => hno b (List.mem_cons_of_mem a hb)
    cases a with
    | call c =>
      simp only [runActions]
      split
      · exact step_slots impl c s
      · exact (ih (step impl c s).2 hrest).trans (step_slots impl c s)
    | reconfigure t =>
      have h := hno (Action.reconfigure t) (List.mem_cons_self _ _)
      simp [Action.isReconfiguration] at h

/-! ## The claims -/

/-- C3: destroying a render target fires `OnRenderTargetRelease` exactly once, and the
firing comes strictly before `m_renderPass` and `m_imageReadySemaphore` are destroyed. -/
theorem destructor_release_before_invalidation :
    destructor.count (Event.fire Member.OnRenderTargetRelease) = 1 ∧
      Event.destroy Member.m_renderPass ∈ destructor ∧
      Event.destroy Member.m_imageReadySemaphore ∈ destructor ∧
      destructor.indexOf (Event.fire Member.OnRenderTargetRelease) <
        destructor.indexOf (Event.destroy Member.m_renderPass) ∧
      destructor.indexOf (Event.fire Member.OnRenderTargetRelease) <
        destructor.indexOf (Event.destroy Member.m_imageReadySemaphore) := by
  decide

/-- C4: after any sequence of `Acquire`, `BuildPreRenderCommands`,
`BuildPostRenderCommands`, `GetFrameBuffer`, `GetFramebufferCount`, `GetRenderPass`,
`GetRenderSemaphore` and `Present` calls, `GetRenderPass` and `GetRenderSemaphore` return
the same instances as before the sequence. -/
theorem owned_objects_preserved {S D W : Type} (impl : VkRenderTargetImpl S D W)
    (calls : List Call) (s : State S D W) :
    (run impl calls s).2.target.GetRenderPass = s.target.GetRenderPass ∧
      (run impl calls s).2.target.GetRenderSemaphore = s.target.GetRenderSemaphore ∧
      (step impl Call.GetRenderPass (run impl calls s).2).1 =
        (step impl Call.GetRenderPass s).1 ∧
      (step impl Call.GetRenderSemaphore (run impl calls s).2).1 =
        (step impl Call.GetRenderSemaphore s).1 := by
  have key : (run impl calls s).2.target.m_renderPass = s.target.m_renderPass ∧
      (run impl calls s).2.target.m_imageReadySemaphore = s.target.m_imageReadySemaphore := by
    induction calls generalizing s with
    | nil => exact ⟨rfl, rfl⟩
    | cons c cs ih =>
      have h1 := step_owned impl c s
      have h2 := ih (step impl c s).2
      simp only [run]
      split
      · exact h1
      · exact ⟨h2.1.trans h1.1, h2.2.trans h1.2⟩
  simp only [step, VkRenderTarget.GetRenderPass, VkRenderTarget.GetRenderSemaphore, key]
  exact ⟨trivial, trivial, trivial, trivial⟩

/-- C5: `GetRenderPass` returns the render target's own `m_renderPass`,
`GetRenderSemaphore` returns its own `m_imageReadySemaphore`, and neither call changes any
field of the render target. -/
theorem accessors_read_only {S D W : Type} (impl : VkRenderTargetImpl S D W)
    (s : State S D W) :
    s.target.GetRenderPass = s.target.m_renderPass ∧
      s.target.GetRenderSemaphore = s.target.m_imageReadySemaphore ∧
      step impl Call.GetRenderPass s = (Reply.renderPass s.target.m_renderPass, s) ∧
      step impl Call.GetRenderSemaphore s =
        (Reply.renderSemaphore s.target.m_imageReadySemaphore, s) :=
  ⟨rfl, rfl, rfl, rfl⟩

/-- C6: for every `imageIndex`, in particular every `imageIndex` below
`GetFramebufferCount()`, two calls of `GetFrameBuffer(imageIndex)` with no reconfiguration
(size-change) event between them return the same framebuffer, whatever calls of the
interface (`Acquire`, `GetFramebufferCount`, other `GetFrameBuffer` calls, the build
operations, `Present`, the accessors) happen in between; and `GetFramebufferCount` returns
the same value as well. -/
theorem GetFrameBuffer_stable {S D W : Type} (impl : VkRenderTargetImpl S D W)
    (actions : List (Action S D)) (s : State S D W) (imageIndex : Nat)
    (hno : ∀ a ∈ actions, a.isReconfiguration = false) :
    (step impl (Call.GetFrameBuffer imageIndex) (runActions impl actions s)).1 =
        (step impl (Call.GetFrameBuffer imageIndex) s).1 ∧
      (step impl Call.GetFramebufferCount (runActions impl actions s)).1 =
        (step impl Call.GetFramebufferCount s).1 := by
  have h := runActions_slots impl actions s hno
  simp only [step, h]
  exact ⟨trivial, trivial⟩

/-- Witness of C6: on the render target with three image slots, the framebuffer of slot 1
and the framebuffer count are the same before and after a whole frame on slot 0 followed
by a second acquisition, and slot 1 is a valid index. -/
theorem GetFrameBuffer_stable_witness :
    1 < slotTarget.GetFramebufferCount slotState.target.slots ∧
      (step slotTarget (Call.GetFrameBuffer 1) (runActions slotTarget oneFrame slotState)).1 =
        Reply.frameBuffer ⟨12⟩ ∧
      (step slotTarget (Call.GetFrameBuffer 1) slotState).1 = Reply.frameBuffer ⟨12⟩ ∧
      (step slotTarget Call.GetFramebufferCount (runActions slotTarget oneFrame slotState)).1 =
        Reply.framebufferCount 3 ∧
      (runActions slotTarget oneFrame slotState).device = ⟨2, false, [1], [0]⟩ := by
  have h := GetFrameBuffer_stable slotTarget oneFrame slotState 1 (by decide)
  have h1 : (step slotTarget (Call.GetFrameBuffer 1) slotState).1 = Reply.frameBuffer ⟨12⟩ := by
    decide
  have h2 : (step slotTarget Call.GetFramebufferCount slotState).1 =
      Reply.framebufferCount 3 := by
    decide
  exact ⟨by decide, h.1.trans h1, h1, h.2.trans h2, by decide⟩

/-- A reconfiguration between the two calls can change both answers: after a resize of
the three-slot render target to two other framebuffers, slot 1 holds another framebuffer
and the count is 2. -/
theorem GetFrameBuffer_after_reconfiguration :
    (step slotTarget (Call.GetFrameBuffer 1)
        (runActions slotTarget
          [Action.reconfigure { slotState.target with slots := [⟨21⟩, ⟨22⟩] }] slotState)).1 =
        Reply.frameBuffer ⟨22⟩ ∧
      (step slotTarget Call.GetFramebufferCount
        (runActions slotTarget
          [Action.reconfigure { slotState.target with slots := [⟨21⟩, ⟨22⟩] }] slotState)).1 =
        Reply.framebufferCount 2 := by
  decide

end Nz
